import Mathlib

/-!
# Verification of the aioeXVHP signed direct-upload subsystem

Shallow embedding of `src/aioexvhp/client.py` (AWS SigV4 authorization builder,
signing-key derivation, streaming digest, upload orchestration) and
`src/aioexvhp/model.py`, with theorems settling the specification claims.

Bytes are `Nat` values below 256; machine 32-bit words are `Nat` reduced
modulo `2 ^ 32` where the source wraps.
-/

namespace AioExvhp

/-! ## SHA-256 (FIPS 180-4), the semantics of Python `hashlib.sha256` -/

/-- `2 ^ 32`, the 32-bit word modulus. -/
def M32 : Nat := 4294967296

/-- The eight SHA-256 initial hash values (FIPS 180-4 §5.3.3), in decimal. -/
def H256 : List Nat :=
  [1779033703, 3144134277, 1013904242, 2773480762,
   1359893119, 2600822924, 528734635, 1541459225]

/-- The 64 SHA-256 round constants (FIPS 180-4 §4.2.2), in decimal. -/
def K256 : List Nat :=
  [1116352408, 1899447441, 3049323471, 3921009573, 961987163, 1508970993,
   2453635748, 2870763221, 3624381080, 310598401, 607225278, 1426881987,
   1925078388, 2162078206, 2614888103, 3248222580, 3835390401, 4022224774,
   264347078, 604807628, 770255983, 1249150122, 1555081692, 1996064986,
   2554220882, 2821834349, 2952996808, 3210313671, 3336571891, 3584528711,
   113926993, 338241895, 666307205, 773529912, 1294757372, 1396182291,
   1695183700, 1986661051, 2177026350, 2456956037, 2730485921, 2820302411,
   3259730800, 3345764771, 3516065817, 3600352804, 4094571909, 275423344,
   430227734, 506948616, 659060556, 883997877, 958139571, 1322822218,
   1537002063, 1747873779, 1955562222, 2024104815, 2227730452, 2361852424,
   2428436474, 2756734187, 3204031479, 3329325298]

/-- Right rotation of a 32-bit word held in a `Nat`. -/
def rotr32 (n x : Nat) : Nat := ((x >>> n) ||| (x <<< (32 - n))) % M32

/-- `Ch(x,y,z)`, with 32-bit complement written as xor with the all-ones word. -/
def chF (x y z : Nat) : Nat := (x &&& y) ^^^ ((x ^^^ 0xffffffff) &&& z)

/-- `Maj(x,y,z)`. -/
def majF (x y z : Nat) : Nat := (x &&& y) ^^^ (x &&& z) ^^^ (y &&& z)

/-- Big sigma 0. -/
def bsig0 (x : Nat) : Nat := rotr32 2 x ^^^ rotr32 13 x ^^^ rotr32 22 x

/-- Big sigma 1. -/
def bsig1 (x : Nat) : Nat := rotr32 6 x ^^^ rotr32 11 x ^^^ rotr32 25 x

/-- Small sigma 0. -/
def ssig0 (x : Nat) : Nat := rotr32 7 x ^^^ rotr32 18 x ^^^ (x >>> 3)

/-- Small sigma 1. -/
def ssig1 (x : Nat) : Nat := rotr32 17 x ^^^ rotr32 19 x ^^^ (x >>> 10)

/-- Big-endian packing of bytes into 32-bit words. -/
def toWords : List Nat → List Nat
  | b0 :: b1 :: b2 :: b3 :: rest =>
      (((b0 * 256 + b1) * 256 + b2) * 256 + b3) :: toWords rest
  | _ => []

/-- Big-endian 4-byte serialization of a 32-bit word. -/
def wordBytes (w : Nat) : List Nat :=
  [(w >>> 24) &&& 255, (w >>> 16) &&& 255, (w >>> 8) &&& 255, w &&& 255]

/-- Big-endian 8-byte serialization of a 64-bit length field. -/
def be64 (n : Nat) : List Nat :=
  [(n >>> 56) &&& 255, (n >>> 48) &&& 255, (n >>> 40) &&& 255, (n >>> 32) &&& 255,
   (n >>> 24) &&& 255, (n >>> 16) &&& 255, (n >>> 8) &&& 255, n &&& 255]

/-- SHA-256 padding: append `0x80`, zero-pad to 56 mod 64, then the 64-bit bit length. -/
def padMsg (msg : List Nat) : List Nat :=
  msg ++ 0x80 :: List.replicate ((119 - msg.length % 64) % 64) 0 ++ be64 (8 * msg.length)

/-- Split a byte list into 64-byte blocks. -/
def toBlocks (l : List Nat) : List (List Nat) :=
  if h : l = [] then [] else l.take 64 :: toBlocks (l.drop 64)
termination_by l.length
decreasing_by
  have hl : 0 < l.length := List.length_pos.mpr h
  simp [List.length_drop]
  omega

/-- Extend a 16-word message schedule by `n` further words. -/
def extendW (ws : List Nat) : Nat → List Nat
  | 0 => ws
  | n + 1 =>
      extendW (ws ++ [(ssig1 (ws.getD (ws.length - 2) 0) + ws.getD (ws.length - 7) 0 +
        ssig0 (ws.getD (ws.length - 15) 0) + ws.getD (ws.length - 16) 0) % M32]) n

/-- One SHA-256 compression round on the eight-word working state. -/
def sha256Step (st : List Nat) (kw : Nat × Nat) : List Nat :=
  match st with
  | [a, b, c, d, e, f, g, h] =>
      let t1 := (h + bsig1 e + chF e f g + kw.1 + kw.2) % M32
      let t2 := (bsig0 a + majF a b c) % M32
      [(t1 + t2) % M32, a, b, c, (d + t1) % M32, e, f, g]
  | other => other

/-- Compress one 64-byte block into the running hash state. -/
def sha256Compress (H block : List Nat) : List Nat :=
  let ws := extendW (toWords block) 48
  let st := (K256.zip ws).foldl sha256Step H
  List.zipWith (fun x y => (x + y) % M32) H st

/-- SHA-256 digest of a byte list, as 32 bytes. -/
def sha256Bytes (msg : List Nat) : List Nat :=
  (((toBlocks (padMsg msg)).foldl sha256Compress H256).map wordBytes).flatten

/-! ## HMAC-SHA256 (FIPS 198-1), the semantics of Python `hmac.new(..., digestmod=sha256)` -/

/-- HMAC-SHA256 of a message under a key, both byte lists, yielding 32 bytes. -/
def hmacSha256 (key msg : List Nat) : List Nat :=
  let k0 := if 64 < key.length then sha256Bytes key else key
  let kp := k0 ++ List.replicate (64 - k0.length) 0
  sha256Bytes ((kp.map (fun b => b ^^^ 0x5c)) ++
    sha256Bytes ((kp.map (fun b => b ^^^ 0x36)) ++ msg))

/-! ## Hex encoding and UTF-8, the semantics of `.hexdigest()` and `str.encode("utf8")` -/

/-- Lower-case hex digit for a value below 16. -/
def hexDigitChar (n : Nat) : Char :=
  if n < 10 then Char.ofNat (48 + n) else Char.ofNat (87 + n)

/-- Two-digit lower-case hex rendering of one byte. -/
def byteHex (b : Nat) : String :=
  String.mk [hexDigitChar (b / 16), hexDigitChar (b % 16)]

/-- Lower-case hex rendering of a byte list. -/
def bytesHex (bs : List Nat) : String := String.join (bs.map byteHex)

/-- UTF-8 encoding of a single character. -/
def utf8Char (c : Char) : List Nat :=
  let n := c.toNat
  if n < 0x80 then [n]
  else if n < 0x800 then [0xC0 ||| (n >>> 6), 0x80 ||| (n &&& 0x3F)]
  else if n < 0x10000 then
    [0xE0 ||| (n >>> 12), 0x80 ||| ((n >>> 6) &&& 0x3F), 0x80 ||| (n &&& 0x3F)]
  else
    [0xF0 ||| (n >>> 18), 0x80 ||| ((n >>> 12) &&& 0x3F),
     0x80 ||| ((n >>> 6) &&& 0x3F), 0x80 ||| (n &&& 0x3F)]

/-- UTF-8 byte encoding of a string, the model of Python `str.encode("utf8")`. -/
def strBytes (s : String) : List Nat :=
  s.data.foldr (fun c acc => utf8Char c ++ acc) []

/-- Hex SHA-256 digest of a byte list. -/
def sha256HexBytes (bs : List Nat) : String := bytesHex (sha256Bytes bs)

/-- Hex SHA-256 digest of the UTF-8 encoding of a string. -/
def sha256HexStr (s : String) : String := sha256HexBytes (strBytes s)

/-! ## Python string and dict semantics used by `client.py` -/

/-- Python `str.join` on a list of strings. -/
def pyJoin (sep : String) : List String → String
  | [] => ""
  | [x] => x
  | x :: xs => x ++ sep ++ pyJoin sep xs

/-- Python `str.lower` restricted to ASCII case folding (all header names and
methods in the source are ASCII). -/
def pyLower (s : String) : String := String.mk (s.data.map Char.toLower)

/-- Python `str.upper` restricted to ASCII case folding. -/
def pyUpper (s : String) : String := String.mk (s.data.map Char.toUpper)

/-- The ASCII whitespace characters stripped by Python `str.strip`. -/
def isPySpace (c : Char) : Bool :=
  c.toNat = 32 || c.toNat = 9 || c.toNat = 10 || c.toNat = 13 || c.toNat = 11 || c.toNat = 12

/-- Python `str.strip` with no argument: drop leading and trailing whitespace. -/
def pyStrip (s : String) : String :=
  String.mk (((s.data.dropWhile isPySpace).reverse.dropWhile isPySpace).reverse)

/-- Python string `<`: code-point lexicographic comparison. -/
def strLtB : List Char → List Char → Bool
  | [], [] => false
  | [], _ :: _ => true
  | _ :: _, [] => false
  | a :: as, b :: bs =>
      if a.toNat < b.toNat then true
      else if b.toNat < a.toNat then false
      else strLtB as bs

/-- Python tuple comparison on `(key, value)` string pairs, as used by
`sorted(d.items())`: compare keys first, values on equal keys. -/
def pairLe (a b : String × String) : Bool :=
  if a.1 = b.1 then strLtB a.2.data b.2.data || a.2 = b.2
  else strLtB a.1.data b.1.data

/-- Insertion step of the sort modelling Python `sorted` on item lists. -/
def insertPair (x : String × String) : List (String × String) → List (String × String)
  | [] => [x]
  | y :: ys => if pairLe x y then x :: y :: ys else y :: insertPair x ys

/-- Python `sorted` on a list of `(key, value)` pairs (insertion sort; Python
dict items have unique keys, so the order is the code-point order of the keys). -/
def pySorted (l : List (String × String)) : List (String × String) :=
  l.foldr insertPair []

/-- Python dict assignment `d[k] = v`: replace the value in place if the key is
present, otherwise append the binding. -/
def dictInsert : List (String × String) → String → String → List (String × String)
  | [], k, v => [(k, v)]
  | (k', v') :: rest, k, v =>
      if k' = k then (k, v) :: rest else (k', v') :: dictInsert rest k v

/-- Python `k in d` on the ordered-dict model. -/
def dictContains : List (String × String) → String → Bool
  | [], _ => false
  | (k', _) :: rest, k => k' = k || dictContains rest k

/-- Python `d[k]` on the ordered-dict model, with a default for totality (the
source only indexes keys it has asserted present). -/
def dictGetD : List (String × String) → String → String → String
  | [], _, dflt => dflt
  | (k', v) :: rest, k, dflt => if k' = k then v else dictGetD rest k dflt

/-- The result of `urllib.parse.urlencode` applied to a `str` argument, as the
source does at `client.py:163`.  The standard library iterates its argument as a
sequence of pairs; a non-empty string offers characters instead of tuples and
raises `TypeError`, while the empty string yields the empty query string. -/
def urlencodeStr (s : String) : Except String String :=
  if s.length = 0 then .ok "" else
    .error "not a valid non-string sequence or mapping object"

/-! ## Data model (`model.py`) and errors -/

/-- Failures surfaced by the client: Python `AssertionError`, HTTP status
failures from `raise_for_status`, `IOError`, and `TypeError`. -/
inductive UploadError where
  | assertionError (msg : String)
  | httpError (status : Nat)
  | ioError (msg : String)
  | typeError (msg : String)
deriving DecidableEq, Repr

/-- `StreamableAWSCredential` from `model.py`. -/
structure StreamableAWSCredential where
  accessKeyId : String
  secretAccessKey : String
  sessionToken : String
deriving DecidableEq, Repr

/-- `StreamableTranscoderOptions` from `model.py`. -/
structure StreamableTranscoderOptions where
  token : String
deriving DecidableEq, Repr

/-- `StreamableUploadCredential` from `model.py`. -/
structure StreamableUploadCredential where
  shortcode : String
  credentials : StreamableAWSCredential
  transcoder_options : StreamableTranscoderOptions
deriving DecidableEq, Repr

/-- A seekable byte source (`io.BufferedReader` / `io.BytesIO`): content plus a
read position. -/
structure SeekableSource where
  data : List Nat
  pos : Nat
deriving DecidableEq, Repr

/-- The content-source variants accepted by the upload data models: a seekable
buffer or a one-shot `aiohttp.StreamReader`. -/
inductive UploadStream where
  | buffered (src : SeekableSource)
  | reader (data : List Nat)
deriving DecidableEq, Repr

/-- `StreamableUploadData` from `model.py`. -/
structure StreamableUploadData where
  filename : String
  filesize : Int
  stream : UploadStream
  title : Option String := none
  upload_region : String := "us-east-1"
deriving DecidableEq, Repr

/-- `StreamffUploadData` from `model.py`. -/
structure StreamffUploadData where
  filename : String
  filesize : Int
  stream : UploadStream
deriving DecidableEq, Repr

/-- `StreamableVideo` from `model.py` (identifier field). -/
structure StreamableVideo where
  shortcode : String
deriving DecidableEq, Repr

/-- `StreamffVideo` from `model.py` (identifier field). -/
structure StreamffVideo where
  id : String
deriving DecidableEq, Repr

/-- Python `str.endswith` with a single suffix argument. -/
def strEndsWith (s t : String) : Bool := List.isSuffixOf t.data s.data

/-! ## Timestamps: the two `strftime` formats used by the source -/

/-- A UTC instant as the fields `datetime.strftime` reads. -/
structure PyDateTime where
  year : Nat
  month : Nat
  day : Nat
  hour : Nat
  minute : Nat
  second : Nat
deriving DecidableEq, Repr

/-- Two-digit zero-padded decimal field. -/
def pad2 (n : Nat) : String := if n < 10 then "0" ++ Nat.repr n else Nat.repr n

/-- Four-digit zero-padded decimal field (`%Y`). -/
def pad4 (n : Nat) : String :=
  if n < 10 then "000" ++ Nat.repr n
  else if n < 100 then "00" ++ Nat.repr n
  else if n < 1000 then "0" ++ Nat.repr n
  else Nat.repr n

/-- `strftime("%Y%m%d")`, the date stamp. -/
def fmtYMD (t : PyDateTime) : String := pad4 t.year ++ pad2 t.month ++ pad2 t.day

/-- `strftime("%Y%m%dT%H%M%SZ")`, the basic ISO-8601 timestamp. -/
def fmtISO (t : PyDateTime) : String :=
  fmtYMD t ++ "T" ++ pad2 t.hour ++ pad2 t.minute ++ pad2 t.second ++ "Z"

/-! ## Signing-key derivation (`Client.__aws_api_signing_key`, client.py:100-118) -/

/-- `Client.__hmac_sha256_sign`: HMAC-SHA256 of the UTF-8 encoded message under
a byte key (client.py:116-118). -/
def hmac_sha256_sign (key : List Nat) (msg : String) : List Nat :=
  hmacSha256 key (strBytes msg)

/-- `Client.__aws_api_signing_key` (client.py:100-114): the chained signing-key
derivation. -/
def aws_api_signing_key (key_secret datestamp region service : String) : List Nat :=
  let key_date := hmac_sha256_sign (strBytes ("AWS4" ++ key_secret)) datestamp
  let key_region := hmac_sha256_sign key_date region
  let key_service := hmac_sha256_sign key_region service
  let key_signing := hmac_sha256_sign key_service "aws4_request"
  key_signing

/-! ## Authorization builder (`Client.__streamable_aws_authorization`, client.py:120-198) -/

/-- The HTTP verbs accepted by the builder's method assertion. -/
def httpMethods : List String :=
  ["CONNECT", "DELETE", "GET", "HEAD", "OPTIONS", "PATCH", "POST", "PUT", "TRACE"]

/-- Lines 147-148: sort the header items (by their original, case-sensitive
names), then rebuild a dict keyed by the lower-cased name with stripped values. -/
def headersDictOf (headers : List (String × String)) : List (String × String) :=
  (pySorted headers).foldl (fun d kv => dictInsert d (pyLower kv.1) (pyStrip kv.2)) []

/-- The canonical-headers block the builder renders: `name:value\n` per entry of
the canonicalized header dict, concatenated (client.py:183-185). -/
def canonicalHeadersBlockOf (headers : List (String × String)) : String :=
  pyJoin "" ((headersDictOf headers).map fun kv => kv.1 ++ ":" ++ kv.2 ++ "\n")

/-- The signed-header list: the canonicalized names joined with `;`
(client.py:160). -/
def signedHeadersOf (headers : List (String × String)) : String :=
  pyJoin ";" ((headersDictOf headers).map Prod.fst)

/-- Lines 162-163: the query loop, inserting `urlencode(qk) -> urlencode(qv)`
into a fresh dict; `urlencode` on a non-empty string raises `TypeError`. -/
def buildQueryDict : List (String × String) → List (String × String) →
    Except UploadError (List (String × String))
  | d, [] => .ok d
  | d, kv :: rest =>
      match urlencodeStr kv.1 with
      | .error e => .error (.typeError e)
      | .ok ek =>
        match urlencodeStr kv.2 with
        | .error e => .error (.typeError e)
        | .ok ev => buildQueryDict (dictInsert d ek ev) rest

/-- The canonical request string hashed by the builder (client.py:176-188),
for an already-built query dict and the canonicalized headers of `headers`. -/
def canonicalRequestOf (m uri : String) (query_dict : List (String × String))
    (headers : List (String × String)) : String :=
  pyJoin "\n"
    [m, uri,
     pyJoin "&" (query_dict.map fun kv => kv.1 ++ ":" ++ kv.2),
     pyJoin "" ((headersDictOf headers).map fun kv => kv.1 ++ ":" ++ kv.2 ++ "\n"),
     pyJoin ";" ((headersDictOf headers).map Prod.fst),
     dictGetD (headersDictOf headers) "x-amz-content-sha256" ""]

/-- `Client.__streamable_aws_authorization` (client.py:120-198): returns the
`Authorization` header value, or the error the Python code raises. -/
def streamable_aws_authorization (method : String) (headers : List (String × String))
    (req_time : PyDateTime) (credential : StreamableAWSCredential) (uri : String)
    (query : List (String × String)) (region : String) (service : String) :
    Except UploadError String :=
  let m := pyUpper method
  if httpMethods.contains m = false then
    .error (.assertionError "Invalid HTTP method specified!")
  else
    let headers_dict := headersDictOf headers
    if dictContains headers_dict "x-amz-content-sha256" = false then
      .error (.assertionError "Must specify Content SHA256 for AWS request")
    else
      let algorithm := "AWS4-HMAC-SHA256"
      let credential_scope := pyJoin "/" [fmtYMD req_time, region, service, "aws4_request"]
      let signed_headers := pyJoin ";" (headers_dict.map Prod.fst)
      match buildQueryDict [] (pySorted query) with
      | .error e => .error e
      | .ok query_dict =>
        let canonical_request :=
          pyJoin "\n"
            [m, uri,
             pyJoin "&" (query_dict.map fun kv => kv.1 ++ ":" ++ kv.2),
             pyJoin "" (headers_dict.map fun kv => kv.1 ++ ":" ++ kv.2 ++ "\n"),
             signed_headers,
             dictGetD headers_dict "x-amz-content-sha256" ""]
        let string_to_sign :=
          pyJoin "\n" [algorithm, fmtISO req_time, credential_scope,
            sha256HexStr canonical_request]
        let signature :=
          bytesHex (hmacSha256
            (aws_api_signing_key credential.secretAccessKey (fmtYMD req_time) region service)
            (strBytes string_to_sign))
        .ok (algorithm ++ " Credential=" ++ credential.accessKeyId ++ "/" ++
          credential_scope ++ ", SignedHeaders=" ++ signed_headers ++ ", Signature=" ++
          signature)

/-! ## Streaming digest pass (client.py:550-561) -/

/-- A bounded read from the current position, advancing it (`stream.read(n)`). -/
def SeekableSource.read (src : SeekableSource) (n : Nat) : List Nat × SeekableSource :=
  let chunk := (src.data.drop src.pos).take n
  (chunk, ⟨src.data, src.pos + chunk.length⟩)

/-- `stream.seek(0, SEEK_SET)`. -/
def SeekableSource.seek0 (src : SeekableSource) : SeekableSource := ⟨src.data, 0⟩

/-- A full sequential read from the current position. -/
def SeekableSource.readAll (src : SeekableSource) : List Nat := src.data.drop src.pos

/-- The `while` loop of client.py:554-558: read 4096-byte chunks, failing if a
chunk exceeds 4096 bytes, feeding each chunk to the incremental hash (modelled
as the accumulated byte buffer `acc`). -/
def digestLoop (acc : List Nat) (src : SeekableSource) :
    Except UploadError (List Nat × SeekableSource) :=
  if h : 0 < ((src.data.drop src.pos).take 4096).length then
    if 4096 < ((src.data.drop src.pos).take 4096).length then
      .error (.ioError "Got more data than expected!")
    else
      digestLoop (acc ++ (src.data.drop src.pos).take 4096)
        ⟨src.data, src.pos + ((src.data.drop src.pos).take 4096).length⟩
  else .ok (acc, ⟨src.data, src.pos + ((src.data.drop src.pos).take 4096).length⟩)
termination_by src.data.length - src.pos
decreasing_by
  have hp : src.pos < src.data.length := by
    by_contra hc
    push_neg at hc
    simp [List.drop_eq_nil_of_le hc] at h
  simp only [List.length_take, List.length_drop]
  omega

/-- Lines 550-561: seek to 0, hash the source in 4096-byte chunks, seek back to
0; returns the hex digest and the source as left for the transfer. -/
def streamDigestPass (src : SeekableSource) : Except UploadError (String × SeekableSource) :=
  match digestLoop [] src.seek0 with
  | .error e => .error e
  | .ok (bs, srcEnd) => .ok (sha256HexBytes bs, srcEnd.seek0)

/-! ## Metadata registration (`Client.__update_streamable_upload_metadata`,
client.py:286-307) -/

/-- `pathlib.PurePath.name`: the final path component. -/
def pathName (s : String) : String :=
  (((s.splitOn "/").filter (fun p => p ≠ "")).getLastD "")

/-- Index of the last `.` in a character list, if any. -/
def lastDotIdx (cs : List Char) : Option Nat :=
  (List.range cs.length).foldl
    (fun acc i => if cs.getD i ' ' = '.' then some i else acc) none

/-- `pathlib.PurePath.stem`: the final component with its last non-leading,
non-trailing dot-suffix removed. -/
def pathStem (s : String) : String :=
  let cs := (pathName s).data
  match lastDotIdx cs with
  | some i => if 0 < i ∧ i < cs.length - 1 then String.mk (cs.take i) else String.mk cs
  | none => String.mk cs

/-- The JSON body of the metadata `PUT` (client.py:296-305). -/
structure StreamableMetadataJson where
  original_name : String
  original_size : Int
  title : String
  upload_source : String
deriving DecidableEq, Repr

/-- The metadata JSON the source registers for an upload: original name and
size, the given title or the filename stem, and `upload_source = "web"`. -/
def streamableMetadataJson (upload_data : StreamableUploadData) : StreamableMetadataJson :=
  { original_name := upload_data.filename
    original_size := upload_data.filesize
    title :=
      match upload_data.title with
      | none => pathStem upload_data.filename
      | some t => t
    upload_source := "web" }

/-! ## Upload orchestration (`Client.upload_to_streamable`, client.py:521-595,
and `Client.upload_to_streamff`, client.py:597-618) -/

/-- Constants from `__init__.py`. -/
def STREAMABLE_UPLOAD_MAX_SIZE : Int := 250 * 0x100000

/-- `STREAMFF_UPLOAD_MAX_SIZE` from `__init__.py`. -/
def STREAMFF_UPLOAD_MAX_SIZE : Int := 200 * 0x100000

/-- `STREAMABLE_AWS_BUCKET_URL` from `__init__.py`. -/
def STREAMABLE_AWS_BUCKET_URL : String := "https://streamables-upload.s3.amazonaws.com"

/-- `urllib.parse.urlparse(...).netloc`: the authority after `://`, before the
first path slash. -/
def urlNetloc (u : String) : String :=
  (((((u.splitOn "://").drop 1).getLastD "").splitOn "/").headD "")

/-- The network invocations the client issues, in order. -/
inductive NetCall where
  | getShortcode (size : Int)
  | putMetadata (shortcode : String) (json : StreamableMetadataJson)
  | putSigned (url : String) (headers : List (String × String))
  | postTranscode (shortcode : String)
  | streamffGenerateLink
  | streamffUploadPost (videoId : String)
deriving DecidableEq, Repr

/-- Responses of the mocked transport for a streamable upload attempt: HTTP
statuses for each call, the credential payload, and the wall-clock instant
taken at client.py:539. -/
structure StreamableEnv where
  shortcodeStatus : Nat
  shortcodeCred : StreamableUploadCredential
  metadataStatus : Nat
  putStatus : Nat
  transcodeStatus : Nat
  reqTime : PyDateTime
deriving Repr

/-- The header dict built at client.py:541-548. -/
def streamableBaseHeaders (env : StreamableEnv) : List (String × String) :=
  [("Host", urlNetloc STREAMABLE_AWS_BUCKET_URL),
   ("Content-Type", "application/octet-stream"),
   ("X-AMZ-ACL", "public-read"),
   ("X-AMZ-Content-SHA256", "UNSIGNED-PAYLOAD"),
   ("X-AMZ-Security-Token", env.shortcodeCred.credentials.sessionToken),
   ("X-AMZ-Date", fmtISO env.reqTime)]

/-- Lines 550-561: for a seekable buffer, run the digest pass and overwrite the
content-hash header with the hex digest; a one-shot reader is left untouched. -/
def digestHeaders (s : UploadStream) (headers : List (String × String)) :
    Except UploadError (List (String × String)) :=
  match s with
  | .reader _ => .ok headers
  | .buffered src =>
    match streamDigestPass src with
    | .error e => .error e
    | .ok (hex, _) => .ok (dictInsert headers "X-AMZ-Content-SHA256" hex)

/-- The signed PUT target URL (client.py:576-582). -/
def streamablePutUrl (shortcode : String) : String :=
  pyJoin "/" [STREAMABLE_AWS_BUCKET_URL, "upload/" ++ shortcode]

/-- `Client.upload_to_streamable` (client.py:521-595) against a mocked
transport: the outcome plus the ordered list of network invocations issued. -/
def upload_to_streamable (d : StreamableUploadData) (env : StreamableEnv) :
    Except UploadError StreamableVideo × List NetCall :=
  if (strEndsWith d.filename ".mkv" || strEndsWith d.filename ".mp4") = false then
    (.error (.assertionError "Streamable supports MKV/MP4 files only!"), [])
  else if d.filesize ≤ STREAMABLE_UPLOAD_MAX_SIZE then
    let t1 : List NetCall := [.getShortcode d.filesize]
    if 400 ≤ env.shortcodeStatus then (.error (.httpError env.shortcodeStatus), t1)
    else
      let creds := env.shortcodeCred
      let t2 := t1 ++ [.putMetadata creds.shortcode (streamableMetadataJson d)]
      if 400 ≤ env.metadataStatus then (.error (.httpError env.metadataStatus), t2)
      else
        match digestHeaders d.stream (streamableBaseHeaders env) with
        | .error e => (.error e, t2)
        | .ok headers1 =>
          match streamable_aws_authorization "PUT" headers1 env.reqTime
              creds.credentials ("/upload/" ++ creds.shortcode) [] d.upload_region "s3" with
          | .error e => (.error e, t2)
          | .ok auth =>
            let headers2 := dictInsert headers1 "Authorization" auth
            let t3 := t2 ++ [.putSigned (streamablePutUrl creds.shortcode) headers2]
            if 400 ≤ env.putStatus then (.error (.httpError env.putStatus), t3)
            else
              let t4 := t3 ++ [.postTranscode creds.shortcode]
              if 400 ≤ env.transcodeStatus then (.error (.httpError env.transcodeStatus), t4)
              else (.ok ⟨creds.shortcode⟩, t4)
  else
    (.error (.assertionError "Streamable supports 250.0MB maximum!"), [])

/-- Responses of the mocked transport for a streamff upload attempt. -/
structure StreamffEnv where
  genStatus : Nat
  videoId : String
  uploadStatus : Nat
deriving Repr

/-- `Client.upload_to_streamff` (client.py:597-618) against a mocked transport:
the generate-link call is issued before the filename and size assertions. -/
def upload_to_streamff (d : StreamffUploadData) (env : StreamffEnv) :
    Except UploadError StreamffVideo × List NetCall :=
  let t1 : List NetCall := [.streamffGenerateLink]
  if 400 ≤ env.genStatus then (.error (.httpError env.genStatus), t1)
  else if strEndsWith d.filename ".mp4" = false then
    (.error (.assertionError "Streamff supports MP4 files only!"), t1)
  else if d.filesize ≤ STREAMFF_UPLOAD_MAX_SIZE then
    let t2 := t1 ++ [.streamffUploadPost env.videoId]
    if 400 ≤ env.uploadStatus then (.error (.httpError env.uploadStatus), t2)
    else (.ok ⟨env.videoId⟩, t2)
  else
    (.error (.assertionError "Streamff supports 200.0MB maximum!"), t1)

/-! ## Specification-side definitions

These follow the wording of the specification (spec.md §4.2-§4.3) rather than
the code, for comparison against the embedded source functions. -/

/-- The header entries as the specification words them: lower-case every name,
strip every value, then sort by the (already lower-cased) name. -/
def specHeaderEntries (headers : List (String × String)) : List (String × String) :=
  pySorted (headers.map fun kv => (pyLower kv.1, pyStrip kv.2))

/-- The canonical-headers block as the specification words it: the
spec-sorted entries rendered as `name:value\n` lines, concatenated. -/
def specCanonicalHeadersBlock (headers : List (String × String)) : String :=
  pyJoin "" ((specHeaderEntries headers).map fun kv => kv.1 ++ ":" ++ kv.2 ++ "\n")

/-- The signing key as the specification words it: the literal 4-step
HMAC-SHA256 chain seeded with `"AWS4" + secret`. -/
def specSigningKey (secret datestamp region service : String) : List Nat :=
  hmacSha256
    (hmacSha256
      (hmacSha256
        (hmacSha256 (strBytes ("AWS4" ++ secret)) (strBytes datestamp))
        (strBytes region))
      (strBytes service))
    (strBytes "aws4_request")

/-- The credential scope as the specification words it:
`dateStamp/region/service/aws4_request`. -/
def specCredentialScope (t : PyDateTime) (region service : String) : String :=
  fmtYMD t ++ "/" ++ region ++ "/" ++ service ++ "/aws4_request"

/-- The string-to-sign as the specification words it. -/
def specStringToSign (t : PyDateTime) (scope canonicalRequest : String) : String :=
  "AWS4-HMAC-SHA256\n" ++ fmtISO t ++ "\n" ++ scope ++ "\n" ++ sha256HexStr canonicalRequest

/-- The returned header value format as the specification words it. -/
def specAuthHeaderFormat (accessKeyId scope signedHeaders signature : String) : String :=
  "AWS4-HMAC-SHA256 Credential=" ++ accessKeyId ++ "/" ++ scope ++
    ", SignedHeaders=" ++ signedHeaders ++ ", Signature=" ++ signature

/-- The payload-hash header value the specification prescribes per content
source: the literal sentinel for one-shot streams, the hex digest for seekable
buffers. -/
def expectedPayloadHash : UploadStream → String
  | .reader _ => "UNSIGNED-PAYLOAD"
  | .buffered src => sha256HexBytes src.data

/-- Characterization of `digestHeaders` on its success path, used to phrase the
orchestrator lemmas. -/
def expectedDigestHeaders (s : UploadStream) (headers : List (String × String)) :
    List (String × String) :=
  match s with
  | .reader _ => headers
  | .buffered src => dictInsert headers "X-AMZ-Content-SHA256" (sha256HexBytes src.data)

/-! ## Helper lemmas -/

/-- String concatenation is associative. -/
theorem str_assoc : ∀ (a b c : String), a ++ b ++ c = a ++ (b ++ c)
  | ⟨a⟩, ⟨b⟩, ⟨c⟩ => congrArg String.mk (List.append_assoc a b c)

/-- Merge an adjacent literal pair under right-association. -/
theorem str_lit_merge (a b c : String) (h : a ++ b = c) (X : String) :
    a ++ (b ++ X) = c ++ X := by
  rw [← str_assoc, h]

/-- A prefix of a list followed by dropping that prefix's length restores the
list. -/
theorem take_drop_chunk (k : Nat) (l : List Nat) :
    l.take k ++ l.drop ((l.take k).length) = l := by
  rcases le_or_lt l.length k with h | h
  · rw [List.take_of_length_le h]
    simp
  · rw [List.length_take]
    have hm : min k l.length = k := by omega
    rw [hm, List.take_append_drop]

/-- The digest loop accumulates exactly the remaining bytes and leaves the
position at the end of the data. -/
theorem digestLoop_eq : ∀ (n : Nat) (data : List Nat) (pos : Nat) (acc : List Nat),
    data.length - pos = n → pos ≤ data.length →
    digestLoop acc ⟨data, pos⟩ = .ok (acc ++ data.drop pos, ⟨data, data.length⟩) := by
  intro n
  induction n using Nat.strong_induction_on with
  | _ n ih =>
    intro data pos acc hn hle
    rw [digestLoop]
    by_cases hc : 0 < ((data.drop pos).take 4096).length
    · rw [dif_pos hc]
      have hbound : ¬ 4096 < ((data.drop pos).take 4096).length := by
        have := List.length_take_le 4096 (data.drop pos)
        omega
      rw [if_neg hbound]
      have hlen : ((data.drop pos).take 4096).length ≤ data.length - pos := by
        have h1 := List.length_take_le 4096 (data.drop pos)
        have h2 : (data.drop pos).length = data.length - pos := List.length_drop pos data
        have h3 := List.length_take 4096 (data.drop pos)
        omega
      have hplt : pos < data.length := by
        by_contra hcon
        push_neg at hcon
        rw [List.drop_eq_nil_of_le hcon] at hc
        simp at hc
      rw [ih (data.length - (pos + ((data.drop pos).take 4096).length)) (by omega)
        data (pos + ((data.drop pos).take 4096).length)
        (acc ++ (data.drop pos).take 4096) rfl (by omega)]
      have hsplit : (data.drop pos).take 4096 ++
          data.drop (pos + ((data.drop pos).take 4096).length) = data.drop pos := by
        have hdd : data.drop (pos + ((data.drop pos).take 4096).length) =
            (data.drop pos).drop (((data.drop pos).take 4096).length) := by
          rw [List.drop_drop]
        rw [hdd]
        exact take_drop_chunk 4096 (data.drop pos)
      rw [List.append_assoc, hsplit]
    · rw [dif_neg hc]
      have hnil : (data.drop pos).take 4096 = [] := by
        rcases List.eq_nil_or_concat ((data.drop pos).take 4096) with h | ⟨l, a, h⟩
        · exact h
        · exfalso
          apply hc
          rw [h]
          simp
      have hdnil : data.drop pos = [] := by
        by_contra hcon
        have : 0 < (data.drop pos).length := List.length_pos.mpr hcon
        have : 0 < ((data.drop pos).take 4096).length := by
          rw [List.length_take]
          omega
        omega
      have hpos : pos = data.length := by
        have := List.drop_eq_nil_iff.mp hdnil
        omega
      rw [hnil, hdnil]
      simp [hpos]

/-- The digest pass on any seekable source: hex digest of the full content,
with the source left at position 0. -/
theorem streamDigestPass_eq (src : SeekableSource) :
    streamDigestPass src = .ok (sha256HexBytes src.data, ⟨src.data, 0⟩) := by
  unfold streamDigestPass SeekableSource.seek0
  rw [digestLoop_eq src.data.length src.data 0 [] (by omega) (by omega)]
  simp [SeekableSource.seek0]

/-- `digestHeaders` always succeeds and yields the characterized header list. -/
theorem digestHeaders_eq (s : UploadStream) (headers : List (String × String)) :
    digestHeaders s headers = .ok (expectedDigestHeaders s headers) := by
  cases s with
  | reader d => rfl
  | buffered src => simp [digestHeaders, streamDigestPass_eq, expectedDigestHeaders]

/-- The headers built by the orchestrator always canonicalize to a dict
containing the `x-amz-content-sha256` entry. -/
theorem contains_expected (s : UploadStream) (env : StreamableEnv) :
    dictContains (headersDictOf (expectedDigestHeaders s (streamableBaseHeaders env)))
      "x-amz-content-sha256" = true := by
  cases s with
  | reader _ => rfl
  | buffered src => rfl

/-- The builder succeeds whenever the method is accepted and the canonicalized
headers carry the content hash, for an empty query map. -/
theorem streamable_auth_ok (method : String) (headers : List (String × String))
    (t : PyDateTime) (cred : StreamableAWSCredential) (uri region service : String)
    (hm : httpMethods.contains (pyUpper method) = true)
    (hc : dictContains (headersDictOf headers) "x-amz-content-sha256" = true) :
    ∃ a, streamable_aws_authorization method headers t cred uri [] region service = .ok a := by
  simp only [streamable_aws_authorization, hm, hc]
  exact ⟨_, rfl⟩

/-- Full unfolding of the builder on the success path, in the code's own
concatenation shape. -/
theorem auth_unfold (method : String) (headers : List (String × String)) (t : PyDateTime)
    (cred : StreamableAWSCredential) (uri region service : String)
    (hm : httpMethods.contains (pyUpper method) = true)
    (hc : dictContains (headersDictOf headers) "x-amz-content-sha256" = true) :
    streamable_aws_authorization method headers t cred uri [] region service =
      .ok ("AWS4-HMAC-SHA256" ++ " Credential=" ++ cred.accessKeyId ++ "/" ++
        pyJoin "/" [fmtYMD t, region, service, "aws4_request"] ++ ", SignedHeaders=" ++
        pyJoin ";" ((headersDictOf headers).map Prod.fst) ++ ", Signature=" ++
        bytesHex (hmacSha256
          (aws_api_signing_key cred.secretAccessKey (fmtYMD t) region service)
          (strBytes (pyJoin "\n" ["AWS4-HMAC-SHA256", fmtISO t,
            pyJoin "/" [fmtYMD t, region, service, "aws4_request"],
            sha256HexStr (pyJoin "\n" [pyUpper method, uri,
              pyJoin "&" (([] : List (String × String)).map fun kv => kv.1 ++ ":" ++ kv.2),
              pyJoin "" ((headersDictOf headers).map fun kv => kv.1 ++ ":" ++ kv.2 ++ "\n"),
              pyJoin ";" ((headersDictOf headers).map Prod.fst),
              dictGetD (headersDictOf headers) "x-amz-content-sha256" ""])])))) := by
  simp only [streamable_aws_authorization, hm, hc]
  rfl

/-- Unfolding of the streamable orchestrator once validation, shortcode
generation and metadata registration have succeeded. -/
theorem upload_streamable_unfold (d : StreamableUploadData) (env : StreamableEnv)
    (hext : (strEndsWith d.filename ".mkv" || strEndsWith d.filename ".mp4") = true)
    (hsize : d.filesize ≤ STREAMABLE_UPLOAD_MAX_SIZE)
    (hsc : env.shortcodeStatus < 400)
    (hmd : env.metadataStatus < 400) :
    ∃ auth : String,
      upload_to_streamable d env =
        (let hdrs2 := dictInsert (expectedDigestHeaders d.stream (streamableBaseHeaders env))
            "Authorization" auth
         let t3 : List NetCall := [.getShortcode d.filesize,
            .putMetadata env.shortcodeCred.shortcode (streamableMetadataJson d),
            .putSigned (streamablePutUrl env.shortcodeCred.shortcode) hdrs2]
         if 400 ≤ env.putStatus then (.error (.httpError env.putStatus), t3)
         else if 400 ≤ env.transcodeStatus then
           (.error (.httpError env.transcodeStatus),
            t3 ++ [.postTranscode env.shortcodeCred.shortcode])
         else (.ok ⟨env.shortcodeCred.shortcode⟩,
            t3 ++ [.postTranscode env.shortcodeCred.shortcode])) := by
  obtain ⟨a, ha⟩ := streamable_auth_ok "PUT"
    (expectedDigestHeaders d.stream (streamableBaseHeaders env)) env.reqTime
    env.shortcodeCred.credentials ("/upload/" ++ env.shortcodeCred.shortcode)
    d.upload_region "s3" (by decide) (contains_expected d.stream env)
  refine ⟨a, ?_⟩
  have h1 : ¬ 400 ≤ env.shortcodeStatus := by omega
  have h2 : ¬ 400 ≤ env.metadataStatus := by omega
  simp only [upload_to_streamable, hext, hsize, h1, h2, digestHeaders_eq, ha]
  simp

/-- The metadata registration call is in the trace as soon as validation and
shortcode generation succeed, whatever happens later. -/
theorem metadata_in_trace (d : StreamableUploadData) (env : StreamableEnv)
    (hext : (strEndsWith d.filename ".mkv" || strEndsWith d.filename ".mp4") = true)
    (hsize : d.filesize ≤ STREAMABLE_UPLOAD_MAX_SIZE)
    (hsc : env.shortcodeStatus < 400) :
    NetCall.putMetadata env.shortcodeCred.shortcode (streamableMetadataJson d) ∈
      (upload_to_streamable d env).2 := by
  by_cases hmd : 400 ≤ env.metadataStatus
  · have h1 : ¬ 400 ≤ env.shortcodeStatus := by omega
    simp [upload_to_streamable, hext, hsize, h1, hmd]
  · obtain ⟨a, hu⟩ := upload_streamable_unfold d env hext hsize hsc (by omega)
    rw [hu]
    by_cases hp : 400 ≤ env.putStatus
    · simp [hp]
    · by_cases htc : 400 ≤ env.transcodeStatus
      · simp [hp, htc]
      · simp [hp, htc]

/-! ## Claim theorems -/

/-- Claim C1 (code_bug evidence): the code sorts header items by their
original, case-sensitive names before lower-casing, so the canonical-headers
block is not sorted by the lower-cased name and is not invariant under header
key case: for the map `B:1, a:2, x-amz-content-sha256:h` the code renders the
`b` line before the `a` line, differing from the spec-ordered block, and the
same map with `b` written in lower case canonicalizes differently. -/
theorem canonical_headers_sort_diverges :
    canonicalHeadersBlockOf [("B", "1"), ("a", "2"), ("x-amz-content-sha256", "h")] =
        "b:1\na:2\nx-amz-content-sha256:h\n" ∧
    specCanonicalHeadersBlock [("B", "1"), ("a", "2"), ("x-amz-content-sha256", "h")] =
        "a:2\nb:1\nx-amz-content-sha256:h\n" ∧
    canonicalHeadersBlockOf [("B", "1"), ("a", "2"), ("x-amz-content-sha256", "h")] ≠
        specCanonicalHeadersBlock [("B", "1"), ("a", "2"), ("x-amz-content-sha256", "h")] ∧
    canonicalHeadersBlockOf [("B", "1"), ("a", "2"), ("x-amz-content-sha256", "h")] ≠
        canonicalHeadersBlockOf [("b", "1"), ("a", "2"), ("x-amz-content-sha256", "h")] :=
  ⟨rfl, rfl, by decide, by decide⟩

/-- Claim C2 (code_bug evidence): the builder applies `urllib.parse.urlencode`
to each query key and value string, which raises `TypeError` for any non-empty
string, so any non-empty query map makes the builder fail instead of producing
a canonical query string; the empty map does yield the empty string, and even
the pair renderer joins with `:` rather than `=`. -/
theorem query_encoding_raises_type_error :
    streamable_aws_authorization "PUT" [("x-amz-content-sha256", "h")] ⟨2024, 1, 1, 0, 0, 0⟩
        ⟨"AK", "SK", "TOK"⟩ "/u" [("a", "b")] "us-east-1" "s3" =
      .error (.typeError "not a valid non-string sequence or mapping object") ∧
    pyJoin "&" (([] : List (String × String)).map fun kv => kv.1 ++ ":" ++ kv.2) = "" ∧
    pyJoin "&" ([("k", "v")].map fun kv => kv.1 ++ ":" ++ kv.2) = "k:v" ∧
    ("k:v" : String) ≠ "k=v" :=
  ⟨rfl, rfl, rfl, by decide⟩

/-- Claim C3 (counterexample): `upload_to_streamff` with the invalid filename
`movie.avi` fails validation, but only after the generate-link network call has
been issued — the trace before the validation failure is not empty. -/
theorem streamff_network_call_precedes_validation :
    (upload_to_streamff ⟨"movie.avi", 10, .reader []⟩ ⟨200, "vid", 200⟩).1 =
        .error (.assertionError "Streamff supports MP4 files only!") ∧
    (upload_to_streamff ⟨"movie.avi", 10, .reader []⟩ ⟨200, "vid", 200⟩).2 =
        [NetCall.streamffGenerateLink] ∧
    ([NetCall.streamffGenerateLink] : List NetCall) ≠ [] :=
  ⟨rfl, rfl, by simp⟩

/-- Claim C3 (amended): the streamable upload validates filename extension and
size before any network call (empty trace on validation failure); the streamff
upload issues exactly its generate-link call first and then fails validation
before the upload POST. -/
theorem validation_order_amended :
    (∀ (d : StreamableUploadData) (env : StreamableEnv),
      ((strEndsWith d.filename ".mkv" || strEndsWith d.filename ".mp4") = false ∨
          STREAMABLE_UPLOAD_MAX_SIZE < d.filesize) →
        (∃ msg, (upload_to_streamable d env).1 = .error (.assertionError msg)) ∧
          (upload_to_streamable d env).2 = []) ∧
    (∀ (d : StreamffUploadData) (env : StreamffEnv),
      env.genStatus < 400 →
      (strEndsWith d.filename ".mp4" = false ∨ STREAMFF_UPLOAD_MAX_SIZE < d.filesize) →
        (∃ msg, (upload_to_streamff d env).1 = .error (.assertionError msg)) ∧
          (upload_to_streamff d env).2 = [NetCall.streamffGenerateLink]) := by
  constructor
  · intro d env h
    cases hb : (strEndsWith d.filename ".mkv" || strEndsWith d.filename ".mp4") with
    | false =>
      refine ⟨⟨"Streamable supports MKV/MP4 files only!", ?_⟩, ?_⟩ <;>
        simp [upload_to_streamable, hb]
    | true =>
      rcases h with h | h
      · simp [hb] at h
      · have hs : ¬ d.filesize ≤ STREAMABLE_UPLOAD_MAX_SIZE := by omega
        refine ⟨⟨"Streamable supports 250.0MB maximum!", ?_⟩, ?_⟩ <;>
          simp [upload_to_streamable, hb, hs]
  · intro d env hg h
    have hgs : ¬ 400 ≤ env.genStatus := by omega
    cases hb : strEndsWith d.filename ".mp4" with
    | false =>
      refine ⟨⟨"Streamff supports MP4 files only!", ?_⟩, ?_⟩ <;>
        simp [upload_to_streamff, hgs, hb]
    | true =>
      rcases h with h | h
      · simp [hb] at h
      · have hs : ¬ d.filesize ≤ STREAMFF_UPLOAD_MAX_SIZE := by omega
        refine ⟨⟨"Streamff supports 200.0MB maximum!", ?_⟩, ?_⟩ <;>
          simp [upload_to_streamff, hgs, hb, hs]

/-- Witness for the amended claim C3 at concrete inputs. -/
theorem validation_order_amended_witness :
    ((strEndsWith "movie.avi" ".mkv" || strEndsWith "movie.avi" ".mp4") = false ∨
        STREAMABLE_UPLOAD_MAX_SIZE < (10 : Int)) ∧
    ((∃ msg, (upload_to_streamable ⟨"movie.avi", 10, .reader [], none, "us-east-1"⟩
        ⟨200, ⟨"sc", ⟨"AK", "SK", "TOK"⟩, ⟨"tt"⟩⟩, 200, 200, 200, ⟨2024, 1, 1, 0, 0, 0⟩⟩).1 =
          .error (.assertionError msg)) ∧
      (upload_to_streamable ⟨"movie.avi", 10, .reader [], none, "us-east-1"⟩
        ⟨200, ⟨"sc", ⟨"AK", "SK", "TOK"⟩, ⟨"tt"⟩⟩, 200, 200, 200, ⟨2024, 1, 1, 0, 0, 0⟩⟩).2 = []) :=
  ⟨Or.inl (by decide),
   validation_order_amended.1 ⟨"movie.avi", 10, .reader [], none, "us-east-1"⟩
     ⟨200, ⟨"sc", ⟨"AK", "SK", "TOK"⟩, ⟨"tt"⟩⟩, 200, 200, 200, ⟨2024, 1, 1, 0, 0, 0⟩⟩
     (Or.inl (by decide))⟩

/-- Claim C4: the derived signing key is exactly the 4-step HMAC-SHA256 chain
the specification states, seeded with `"AWS4" + secret` and closed with
`"aws4_request"`; as a pure function it is deterministic in its inputs. -/
theorem signing_key_is_spec_chain (key_secret datestamp region service : String) :
    aws_api_signing_key key_secret datestamp region service =
      specSigningKey key_secret datestamp region service := rfl

/-- Claim C5: on accepted methods with the content-hash header present (and the
empty query map the source always passes), the builder returns exactly the
specification's header value: algorithm, credential scope
`dateStamp/region/service/aws4_request`, signed headers, and the hex
HMAC-SHA256 of the spec string-to-sign under the derived signing key. -/
theorem auth_header_follows_sigv4_format (method : String) (headers : List (String × String))
    (t : PyDateTime) (cred : StreamableAWSCredential) (uri region service : String)
    (hm : httpMethods.contains (pyUpper method) = true)
    (hc : dictContains (headersDictOf headers) "x-amz-content-sha256" = true) :
    streamable_aws_authorization method headers t cred uri [] region service =
      .ok (specAuthHeaderFormat cred.accessKeyId (specCredentialScope t region service)
        (signedHeadersOf headers)
        (bytesHex (hmacSha256
          (aws_api_signing_key cred.secretAccessKey (fmtYMD t) region service)
          (strBytes (specStringToSign t (specCredentialScope t region service)
            (canonicalRequestOf (pyUpper method) uri [] headers)))))) := by
  rw [auth_unfold method headers t cred uri region service hm hc]
  apply congrArg
  simp only [specAuthHeaderFormat, specStringToSign, specCredentialScope,
    canonicalRequestOf, signedHeadersOf, pyJoin, List.map_nil]
  simp only [str_assoc]
  rw [str_lit_merge "AWS4-HMAC-SHA256" " Credential=" "AWS4-HMAC-SHA256 Credential=" rfl,
    str_lit_merge "AWS4-HMAC-SHA256" "\n" "AWS4-HMAC-SHA256\n" rfl]
  rfl

/-- Witness for claim C5 at concrete inputs. -/
theorem auth_header_follows_sigv4_format_witness :
    httpMethods.contains (pyUpper "PUT") = true ∧
    dictContains (headersDictOf [("X-AMZ-Content-SHA256", "abc")]) "x-amz-content-sha256" =
      true ∧
    streamable_aws_authorization "PUT" [("X-AMZ-Content-SHA256", "abc")] ⟨2015, 8, 30, 12, 36, 0⟩
        ⟨"AKID", "SECRET", "TOK"⟩ "/" [] "us-east-1" "s3" =
      .ok (specAuthHeaderFormat "AKID" (specCredentialScope ⟨2015, 8, 30, 12, 36, 0⟩
          "us-east-1" "s3")
        (signedHeadersOf [("X-AMZ-Content-SHA256", "abc")])
        (bytesHex (hmacSha256
          (aws_api_signing_key "SECRET" (fmtYMD ⟨2015, 8, 30, 12, 36, 0⟩) "us-east-1" "s3")
          (strBytes (specStringToSign ⟨2015, 8, 30, 12, 36, 0⟩
            (specCredentialScope ⟨2015, 8, 30, 12, 36, 0⟩ "us-east-1" "s3")
            (canonicalRequestOf (pyUpper "PUT") "/" [] [("X-AMZ-Content-SHA256", "abc")])))))) :=
  ⟨by decide, by decide,
   auth_header_follows_sigv4_format "PUT" [("X-AMZ-Content-SHA256", "abc")]
     ⟨2015, 8, 30, 12, 36, 0⟩ ⟨"AKID", "SECRET", "TOK"⟩ "/" "us-east-1" "s3"
     (by decide) (by decide)⟩

/-- Claim C6: the streaming digest pass returns the hex SHA-256 of the entire
content, leaves the read position at 0, and a subsequent full read yields the
same bytes — the digest does not consume the seekable source. -/
theorem streaming_digest_round_trip (src : SeekableSource) :
    streamDigestPass src = .ok (sha256HexBytes src.data, src.seek0) ∧
    src.seek0.pos = 0 ∧ src.seek0.readAll = src.data := by
  refine ⟨?_, rfl, ?_⟩
  · rw [streamDigestPass_eq]
    rfl
  · simp [SeekableSource.readAll, SeekableSource.seek0]

/-- Claim C7: the signed PUT issued by the streamable upload carries
`X-AMZ-Content-SHA256: UNSIGNED-PAYLOAD` for a one-shot stream source and the
hex SHA-256 of the payload for a seekable buffer, and in both cases the
transfer is issued. -/
theorem payload_hash_header_by_source_kind (d : StreamableUploadData) (env : StreamableEnv)
    (hext : (strEndsWith d.filename ".mkv" || strEndsWith d.filename ".mp4") = true)
    (hsize : d.filesize ≤ STREAMABLE_UPLOAD_MAX_SIZE)
    (hsc : env.shortcodeStatus < 400)
    (hmd : env.metadataStatus < 400) :
    ∃ hdrs, NetCall.putSigned (streamablePutUrl env.shortcodeCred.shortcode) hdrs ∈
        (upload_to_streamable d env).2 ∧
      dictGetD hdrs "X-AMZ-Content-SHA256" "" = expectedPayloadHash d.stream := by
  obtain ⟨a, hu⟩ := upload_streamable_unfold d env hext hsize hsc hmd
  refine ⟨dictInsert (expectedDigestHeaders d.stream (streamableBaseHeaders env))
    "Authorization" a, ?_, ?_⟩
  · rw [hu]
    by_cases hp : 400 ≤ env.putStatus
    · simp [hp]
    · by_cases htc : 400 ≤ env.transcodeStatus
      · simp [hp, htc]
      · simp [hp, htc]
  · cases hs : d.stream with
    | reader dta => rfl
    | buffered src => rfl

/-- Witness for claim C7 at concrete inputs (one-shot stream source). -/
theorem payload_hash_header_by_source_kind_witness :
    (strEndsWith "movie.mp4" ".mkv" || strEndsWith "movie.mp4" ".mp4") = true ∧
    (10 : Int) ≤ STREAMABLE_UPLOAD_MAX_SIZE ∧ 200 < 400 ∧ 200 < 400 ∧
    (∃ hdrs, NetCall.putSigned (streamablePutUrl "sc") hdrs ∈
        (upload_to_streamable ⟨"movie.mp4", 10, .reader [1], none, "us-east-1"⟩
          ⟨200, ⟨"sc", ⟨"AK", "SK", "TOK"⟩, ⟨"tt"⟩⟩, 200, 200, 200,
            ⟨2024, 1, 1, 0, 0, 0⟩⟩).2 ∧
      dictGetD hdrs "X-AMZ-Content-SHA256" "" = expectedPayloadHash (.reader [1])) :=
  ⟨by decide, by decide, by decide, by decide,
   payload_hash_header_by_source_kind ⟨"movie.mp4", 10, .reader [1], none, "us-east-1"⟩
     ⟨200, ⟨"sc", ⟨"AK", "SK", "TOK"⟩, ⟨"tt"⟩⟩, 200, 200, 200, ⟨2024, 1, 1, 0, 0, 0⟩⟩
     (by decide) (by decide) (by decide) (by decide)⟩

/-- Claim C8: the builder fails with the content-hash assertion error whenever
the canonicalized header map lacks `x-amz-content-sha256` (for any query map),
and with the entry present it succeeds (for the empty query the source passes)
and the payload-hash line of the canonical request is exactly that entry's
value. -/
theorem content_sha256_required (method : String) (headers : List (String × String))
    (t : PyDateTime) (cred : StreamableAWSCredential) (uri : String)
    (query : List (String × String)) (region service : String)
    (hm : httpMethods.contains (pyUpper method) = true) :
    (dictContains (headersDictOf headers) "x-amz-content-sha256" = false →
      streamable_aws_authorization method headers t cred uri query region service =
        .error (.assertionError "Must specify Content SHA256 for AWS request")) ∧
    (dictContains (headersDictOf headers) "x-amz-content-sha256" = true →
      (∃ s, streamable_aws_authorization method headers t cred uri [] region service =
        .ok s) ∧
      canonicalRequestOf (pyUpper method) uri [] headers =
        pyUpper method ++ "\n" ++ uri ++ "\n" ++ "" ++ "\n" ++
          canonicalHeadersBlockOf headers ++ "\n" ++ signedHeadersOf headers ++ "\n" ++
          dictGetD (headersDictOf headers) "x-amz-content-sha256" "") := by
  constructor
  · intro hf
    simp only [streamable_aws_authorization, hm, hf]
    rfl
  · intro ht
    refine ⟨streamable_auth_ok method headers t cred uri region service hm ht, ?_⟩
    simp only [canonicalRequestOf, canonicalHeadersBlockOf, signedHeadersOf, pyJoin,
      List.map_nil, str_assoc]

/-- Witness for claim C8 at concrete inputs (both the missing-entry and the
present-entry cases). -/
theorem content_sha256_required_witness :
    httpMethods.contains (pyUpper "PUT") = true ∧
    (dictContains (headersDictOf [("Host", "x")]) "x-amz-content-sha256" = false →
      streamable_aws_authorization "PUT" [("Host", "x")] ⟨2024, 1, 1, 0, 0, 0⟩
          ⟨"AK", "SK", "TOK"⟩ "/u" [] "us-east-1" "s3" =
        .error (.assertionError "Must specify Content SHA256 for AWS request")) ∧
    dictContains (headersDictOf [("Host", "x")]) "x-amz-content-sha256" = false :=
  ⟨by decide,
   (content_sha256_required "PUT" [("Host", "x")] ⟨2024, 1, 1, 0, 0, 0⟩ ⟨"AK", "SK", "TOK"⟩
     "/u" [] "us-east-1" "s3" (by decide)).1,
   by decide⟩

/-- Claim C9: when the signed PUT returns a non-success status, the streamable
upload surfaces a transfer error carrying exactly that status and the
transcode-trigger call never appears in the trace. -/
theorem transfer_failure_blocks_activation (d : StreamableUploadData) (env : StreamableEnv)
    (hext : (strEndsWith d.filename ".mkv" || strEndsWith d.filename ".mp4") = true)
    (hsize : d.filesize ≤ STREAMABLE_UPLOAD_MAX_SIZE)
    (hsc : env.shortcodeStatus < 400)
    (hmd : env.metadataStatus < 400)
    (hput : 400 ≤ env.putStatus) :
    (upload_to_streamable d env).1 = .error (.httpError env.putStatus) ∧
    ∀ sc, NetCall.postTranscode sc ∉ (upload_to_streamable d env).2 := by
  obtain ⟨a, hu⟩ := upload_streamable_unfold d env hext hsize hsc hmd
  rw [hu]
  constructor
  · simp [hput]
  · intro sc
    simp [hput]

/-- Witness for claim C9 at concrete inputs with a 403 signed PUT. -/
theorem transfer_failure_blocks_activation_witness :
    (strEndsWith "movie.mp4" ".mkv" || strEndsWith "movie.mp4" ".mp4") = true ∧
    (10 : Int) ≤ STREAMABLE_UPLOAD_MAX_SIZE ∧ 200 < 400 ∧ 200 < 400 ∧ 400 ≤ 403 ∧
    ((upload_to_streamable ⟨"movie.mp4", 10, .reader [1], none, "us-east-1"⟩
        ⟨200, ⟨"sc", ⟨"AK", "SK", "TOK"⟩, ⟨"tt"⟩⟩, 200, 403, 200,
          ⟨2024, 1, 1, 0, 0, 0⟩⟩).1 = .error (.httpError 403) ∧
      NetCall.postTranscode "sc" ∉
        (upload_to_streamable ⟨"movie.mp4", 10, .reader [1], none, "us-east-1"⟩
          ⟨200, ⟨"sc", ⟨"AK", "SK", "TOK"⟩, ⟨"tt"⟩⟩, 200, 403, 200,
            ⟨2024, 1, 1, 0, 0, 0⟩⟩).2) :=
  ⟨by decide, by decide, by decide, by decide, by decide,
   (transfer_failure_blocks_activation ⟨"movie.mp4", 10, .reader [1], none, "us-east-1"⟩
       ⟨200, ⟨"sc", ⟨"AK", "SK", "TOK"⟩, ⟨"tt"⟩⟩, 200, 403, 200, ⟨2024, 1, 1, 0, 0, 0⟩⟩
       (by decide) (by decide) (by decide) (by decide) (by decide)).1,
   (transfer_failure_blocks_activation ⟨"movie.mp4", 10, .reader [1], none, "us-east-1"⟩
       ⟨200, ⟨"sc", ⟨"AK", "SK", "TOK"⟩, ⟨"tt"⟩⟩, 200, 403, 200, ⟨2024, 1, 1, 0, 0, 0⟩⟩
       (by decide) (by decide) (by decide) (by decide) (by decide)).2 "sc"⟩

/-- Claim C10: the metadata registration call carries the original filename and
size, with the filename's stem as title when no title was supplied and the
supplied title unchanged otherwise. -/
theorem metadata_registers_title_or_stem (d : StreamableUploadData) (env : StreamableEnv)
    (hext : (strEndsWith d.filename ".mkv" || strEndsWith d.filename ".mp4") = true)
    (hsize : d.filesize ≤ STREAMABLE_UPLOAD_MAX_SIZE)
    (hsc : env.shortcodeStatus < 400) :
    (d.title = none →
      NetCall.putMetadata env.shortcodeCred.shortcode
        { original_name := d.filename, original_size := d.filesize,
          title := pathStem d.filename, upload_source := "web" } ∈
        (upload_to_streamable d env).2) ∧
    (∀ t0, d.title = some t0 →
      NetCall.putMetadata env.shortcodeCred.shortcode
        { original_name := d.filename, original_size := d.filesize,
          title := t0, upload_source := "web" } ∈
        (upload_to_streamable d env).2) := by
  constructor
  · intro hnone
    have hbase := metadata_in_trace d env hext hsize hsc
    have hj : streamableMetadataJson d =
        { original_name := d.filename, original_size := d.filesize,
          title := pathStem d.filename, upload_source := "web" } := by
      simp [streamableMetadataJson, hnone]
    rwa [hj] at hbase
  · intro t0 hsome
    have hbase := metadata_in_trace d env hext hsize hsc
    have hj : streamableMetadataJson d =
        { original_name := d.filename, original_size := d.filesize,
          title := t0, upload_source := "web" } := by
      simp [streamableMetadataJson, hsome]
    rwa [hj] at hbase

/-- Witness for claim C10 at concrete inputs (absent title defaults to the
filename stem). -/
theorem metadata_registers_title_or_stem_witness :
    (strEndsWith "movie.mp4" ".mkv" || strEndsWith "movie.mp4" ".mp4") = true ∧
    (10 : Int) ≤ STREAMABLE_UPLOAD_MAX_SIZE ∧ 200 < 400 ∧
    ((⟨"movie.mp4", 10, .reader [1], none, "us-east-1"⟩ : StreamableUploadData).title =
      none) ∧
    NetCall.putMetadata "sc"
      { original_name := "movie.mp4", original_size := 10,
        title := pathStem "movie.mp4", upload_source := "web" } ∈
      (upload_to_streamable ⟨"movie.mp4", 10, .reader [1], none, "us-east-1"⟩
        ⟨200, ⟨"sc", ⟨"AK", "SK", "TOK"⟩, ⟨"tt"⟩⟩, 200, 200, 200,
          ⟨2024, 1, 1, 0, 0, 0⟩⟩).2 :=
  ⟨by decide, by decide, by decide, rfl,
   (metadata_registers_title_or_stem ⟨"movie.mp4", 10, .reader [1], none, "us-east-1"⟩
       ⟨200, ⟨"sc", ⟨"AK", "SK", "TOK"⟩, ⟨"tt"⟩⟩, 200, 200, 200, ⟨2024, 1, 1, 0, 0, 0⟩⟩
       (by decide) (by decide) (by decide)).1 rfl⟩

end AioExvhp
